import Mathlib

/-!
Verification of the connection-lifecycle wrapper in `lib/connection.js`
(a thin bluebird-promise adapter over the mongodb 1.x driver).

The embedding is a shallow, executable semantics of the promise chains in
that file.  Driver behaviour (what each promisified driver call reports) is
an explicit environment `DriverEnv`; the adapter's own control flow — the
`.then` / `.error` / `nodeify` / `new Promise(resolve, reject)` plumbing —
is translated combinator-by-combinator from the source.  A method run
produces the ordered trace of driver calls it performs together with the
settlement of the deferred result it returns (`resolved` / `rejected` /
`pending`).

Bluebird semantics captured here:
* `.then(f)` runs `f` on fulfilment and passes rejections through;
* `.error(h)` catches only *operational* rejections, i.e. rejections that
  originate from a rejection (promisified node callbacks, explicit
  `reject(...)` calls) as opposed to synchronously thrown exceptions;
* `promise.nodeify(cb)` invokes `cb(null, v)` on fulfilment and `cb(e)` on
  rejection, and returns the original promise;
* `Promise.all(xs)` over an array of plain (non-promise) values fulfils
  with that array, and rejects with a TypeError on a non-array argument;
* a promise built with `new Promise(executor)` settles with the first
  `resolve` / `reject` the executor invokes, and stays pending forever if
  neither is invoked.
-/

set_option linter.unusedVariables false

/-- A JavaScript value, at the granularity used by `lib/connection.js`:
`undefined`, `null`, booleans, numbers, strings, `Error` objects, arrays
and plain objects (association lists of fields). -/
inductive JSVal where
  | undefined
  | null
  | bool (b : Bool)
  | num (n : Int)
  | str (s : String)
  | errObj (msg : String)
  | arr (xs : List JSVal)
  | obj (fields : List (String × JSVal))

/-- JavaScript truthiness: `undefined`, `null`, `false`, `0` and `""` are
falsy; every object (including `Error`s and arrays) is truthy. -/
def JSVal.truthy : JSVal → Bool
  | .undefined => false
  | .null => false
  | .bool b => b
  | .num n => n != 0
  | .str s => s != ""
  | .errObj _ => true
  | .arr _ => true
  | .obj _ => true

/-- JavaScript property access `v[k]`: a field lookup on a plain object,
and `undefined` on every other value (in particular, `.index` and
`.options` on an *array* are `undefined` — this matters for the
`ensureIndexes` bug). -/
def JSVal.getProp : JSVal → String → JSVal
  | .obj fields, k =>
    match fields.find? (fun p => p.1 == k) with
    | some p => p.2
    | none => .undefined
  | _, _ => .undefined

/-- JavaScript `a || b` as used for the credential defaults
(`options.auth.user || ''`). -/
def jsOr (a b : JSVal) : JSVal := if a.truthy then a else b

/-- Observable events of a run: handle construction (in-memory, done by
`buildConnection`) and the driver calls the adapter issues, in order. -/
inductive Ev where
  | newServerHandle
  | newDatabaseHandle
  | dbOpen
  | dbAuthenticate (user password : JSVal)
  | dbClose
  | dbCreateCollection (name : String)
  | dbDropCollection (name : String)
  | collEnsureIndex (collection index options : JSVal)

/-- An invocation of the `resolve` / `reject` callback of a
`new Promise(executor)`. -/
inductive Settle where
  | sResolve (v : JSVal)
  | sReject (v : JSVal)

/-- The result of an inner promise chain: fulfilled with a value, rejected
with a reason (flagged operational when the rejection *originated from a
rejection* — promisified callback or explicit `reject` — rather than a
synchronous throw), or stuck because it waits on a deferred that never
settles. -/
inductive InnerRes where
  | ok (v : JSVal)
  | err (reason : JSVal) (op : Bool)
  | stuck

/-- One promise-chain computation: the ordered trace of events it emits,
the first `resolve`/`reject` invocation (if any) on the enclosing
deferred, and the chain's own result. -/
structure Run where
  tr : List Ev
  settle : Option Settle
  res : InnerRes

/-- A deferred settles with the first `resolve`/`reject` call; later calls
are ignored. -/
def mergeSettle : Option Settle → Option Settle → Option Settle
  | some s, _ => some s
  | none, b => b

/-- `.then(f)`: run `f` on the fulfilment value; pass rejections and
stuckness through unchanged. -/
def Run.pThen (r : Run) (f : JSVal → Run) : Run :=
  match r.res with
  | .ok v =>
    let s := f v
    { tr := r.tr ++ s.tr, settle := mergeSettle r.settle s.settle, res := s.res }
  | .err e op => { tr := r.tr, settle := r.settle, res := .err e op }
  | .stuck => { tr := r.tr, settle := r.settle, res := .stuck }

/-- Bluebird `.error(h)`: run `h` only on operational rejections. -/
def Run.pError (r : Run) (h : JSVal → Run) : Run :=
  match r.res with
  | .err e true =>
    let s := h e
    { tr := r.tr ++ s.tr, settle := mergeSettle r.settle s.settle, res := s.res }
  | _ => r

/-- `promise.nodeify(cb)`: invoke `cb(null, v)` on fulfilment and `cb(e)`
on rejection (the callback's own return value is discarded and the
original promise is returned); on a stuck promise the callback never
runs. -/
def Run.nodeifyRun (r : Run) (cb : JSVal → Run) : Run :=
  match r.res with
  | .ok v =>
    let s := cb .null
    { tr := r.tr ++ s.tr, settle := mergeSettle r.settle s.settle, res := .ok v }
  | .err e op =>
    let s := cb e
    { tr := r.tr ++ s.tr, settle := mergeSettle r.settle s.settle, res := .err e op }
  | .stuck => r

/-- View a method's `new Promise` deferred as a promise consumed by a
caller's chain (as `open` consumes `authenticate`'s deferred): its
fulfilment/rejection is the executor's `resolve`/`reject` invocation
(explicit rejections are operational), and it is stuck when the executor
never settles it. -/
def Run.asPromise (r : Run) : Run :=
  { tr := r.tr, settle := none,
    res :=
      match r.settle with
      | some (.sResolve v) => .ok v
      | some (.sReject v) => .err v true
      | none => .stuck }

/-- A promisified driver call: emits its event and reports the
environment's verdict; rejections from node-style callbacks are
operational. -/
def driverRun (ev : Ev) (res : Except JSVal JSVal) : Run :=
  { tr := [ev], settle := none,
    res :=
      match res with
      | .ok v => .ok v
      | .error e => .err e true }

/-- A synchronous (non-promisified) driver call inside a `.then` handler,
such as `collection.ensureIndex(...)`: a failure is a synchronous throw,
hence a *non*-operational rejection of the enclosing chain. -/
def syncCallRun (ev : Ev) (res : Except JSVal JSVal) : Run :=
  { tr := [ev], settle := none,
    res :=
      match res with
      | .ok v => .ok v
      | .error e => .err e false }

/-- The executor's `resolve(v)` (returns `undefined`). -/
def resolveRun (v : JSVal) : Run :=
  { tr := [], settle := some (.sResolve v), res := .ok .undefined }

/-- The executor's `reject(v)` (returns `undefined`). -/
def rejectRun (v : JSVal) : Run :=
  { tr := [], settle := some (.sReject v), res := .ok .undefined }

/-- `Promise.all(xs)` over plain values: fulfils with the array itself,
and rejects (operationally, via bluebird's apiRejection) when the argument
is not an array. -/
def promiseAllRun : JSVal → Run
  | .arr xs => { tr := [], settle := none, res := .ok (.arr xs) }
  | _ =>
    { tr := [], settle := none,
      res := .err (.errObj "expecting an array, a promise or a thenable") true }

/-- Settlement of a deferred result as observed by the caller. -/
inductive Outcome where
  | resolved (v : JSVal)
  | rejected (v : JSVal)
  | pending

/-- The deferred returned by a `new Promise(executor)` method: full event
trace plus the settlement determined by the executor's first
`resolve`/`reject` call. -/
def deferredOf (r : Run) : List Ev × Outcome :=
  (r.tr,
   match r.settle with
   | some (.sResolve v) => .resolved v
   | some (.sReject v) => .rejected v
   | none => .pending)

/-- The outcome of a method that returns a plain promise chain (no
`new Promise` wrapper), such as `close` and `ensureIndexes`. -/
def promiseOutcome (r : Run) : List Ev × Outcome :=
  (r.tr,
   match r.res with
   | .ok v => .resolved v
   | .err e _ => .rejected e
   | .stuck => .pending)

/-- Behaviour of the wrapped mongodb driver: the verdict of each
promisified driver call (`Except.error` = the node callback reported an
error) and of the synchronous `collection.ensureIndex` call (`Except.error`
= synchronous throw).  `closeAsync` is not in the environment: driver close
is idempotent and always reports success (spec section 4.1). -/
structure DriverEnv where
  openRes : Except JSVal JSVal
  authRes : JSVal → JSVal → Except JSVal JSVal
  createCollectionRes : String → Except JSVal JSVal
  dropCollectionRes : String → Except JSVal JSVal
  ensureIndexRes : JSVal → JSVal → Except JSVal JSVal

/-- The configuration record handed to the `Connection` constructor.
Every recognized option may be absent (`undefined`), as in JavaScript. -/
structure Config where
  host : JSVal
  port : JSVal
  database : JSVal
  user : JSVal
  password : JSVal
  nativeParser : JSVal
  safe : JSVal

/-- The `auth` sub-object of the server options. -/
structure AuthOptions where
  user : JSVal
  password : JSVal

/-- Options handed to the `Server` constructor (source key
`native_parser`). -/
structure ServerOptions where
  nativeParser : JSVal
  auth : AuthOptions

/-- The `Server` handle: in-memory record of target and options. -/
structure ServerHandle where
  host : JSVal
  port : JSVal
  options : ServerOptions

/-- Options handed to the `Db` constructor: `w` is the numeric
write-acknowledgement level derived from the boolean `safe` flag. -/
structure DatabaseOptions where
  w : Int
  nativeParser : JSVal

/-- The `Db` handle: database name, the server handle it is bound to
(field `serverConfig`, as in the driver), and its options. -/
structure DatabaseHandle where
  databaseName : JSVal
  serverConfig : ServerHandle
  options : DatabaseOptions

/-- The `Connection` object: the held config and the two handles built at
construction time. -/
structure Connection where
  config : Config
  server : ServerHandle
  database : DatabaseHandle

/-- `Connection.prototype.buildConnection`: maps `safe` to `w` (1 when
truthy, else 0), assembles the two option records, and constructs the
`Server` and `Db` handles — purely in-memory, no driver I/O events. -/
def buildConnection (config : Config) : List Ev × ServerHandle × DatabaseHandle :=
  let safe : Int := if config.safe.truthy then 1 else 0
  let serverOptions : ServerOptions :=
    { nativeParser := config.nativeParser
      auth := { user := config.user, password := config.password } }
  let databaseOptions : DatabaseOptions :=
    { w := safe, nativeParser := config.nativeParser }
  let server : ServerHandle :=
    { host := config.host, port := config.port, options := serverOptions }
  let database : DatabaseHandle :=
    { databaseName := config.database, serverConfig := server,
      options := databaseOptions }
  ([.newServerHandle, .newDatabaseHandle], server, database)

/-- A `Config` with no options set: the `{}` that `config || {}` defaults
to. -/
def emptyConfig : Config :=
  { host := .undefined, port := .undefined, database := .undefined, user := .undefined,
    password := .undefined, nativeParser := .undefined, safe := .undefined }

/-- The `Connection(config)` constructor: `this.config = config || {}`,
then `this.buildConnection()`. -/
def connectionNew (config : Option Config) : List Ev × Connection :=
  let cfg := config.getD emptyConfig
  let built := buildConnection cfg
  (built.1, { config := cfg, server := built.2.1, database := built.2.2 })

/-- `Connection.prototype.close`: `this.database.closeAsync().nodeify(cb)`.
Driver close always reports success. -/
def closeRun (self : Connection) (env : DriverEnv)
    (cb : Option (JSVal → Run)) : Run :=
  let p := driverRun .dbClose (.ok .undefined)
  match cb with
  | none => p
  | some f => p.nodeifyRun f

/-- `Connection.prototype.authenticate`, executor of its `new Promise`:
resolve at once when neither credential is truthy; otherwise call
`authenticateAsync(user || '', password || '')`, resolve on success, and
on failure close the connection and then reject — with the driver error
when truthy, else the generic could-not-authenticate `Error`. -/
def authenticateRun (self : Connection) (env : DriverEnv) : Run :=
  let options := self.database.serverConfig.options
  if !options.auth.user.truthy && !options.auth.password.truthy then
    resolveRun .undefined
  else
    let user := jsOr options.auth.user (.str "")
    let password := jsOr options.auth.password (.str "")
    Run.pError
      (Run.pThen
        (driverRun (.dbAuthenticate user password) (env.authRes user password))
        (fun success => resolveRun .undefined))
      (fun err =>
        closeRun self env (some (fun ignored =>
          if err.truthy then rejectRun err
          else
            rejectRun (.errObj
              "Could not authenticate the User/Password combination provided."))))

/-- `Connection.prototype.open`, executor of its `new Promise`:
`openAsync()`, then `authenticate` (whose deferred the chain consumes),
with an `.error` handler that rejects.  Note the executor's `resolve` is
never invoked. -/
def openRun (self : Connection) (env : DriverEnv) : Run :=
  Run.pError
    (Run.pThen (driverRun .dbOpen env.openRes)
      (fun opened => (authenticateRun self env).asPromise))
    (fun err => rejectRun err)

/-- The `createIndex` helper inside `ensureIndexes`:
`collection.ensureIndex(item.index, item.options)` — a synchronous driver
call on whatever single argument the `.then` hands it. -/
def createIndexRun (env : DriverEnv) (collection item : JSVal) : Run :=
  syncCallRun
    (.collEnsureIndex collection (item.getProp "index") (item.getProp "options"))
    (env.ensureIndexRes (item.getProp "index") (item.getProp "options"))

/-- `Connection.prototype.ensureIndexes`:
`Promise.all(indexes).then(createIndex)`, then `nodeify(cb)` when a
callback is supplied.  `Promise.all` fulfils with the *array* of specs, so
`createIndex` receives the whole array as `item`. -/
def ensureIndexesRun (env : DriverEnv) (collection indexes : JSVal)
    (cb : Option (JSVal → Run)) : Run :=
  let promise :=
    Run.pThen (promiseAllRun indexes) (fun items => createIndexRun env collection items)
  match cb with
  | none => promise
  | some f => promise.nodeifyRun f

/-- `Connection.prototype.createCollection`, executor of its
`new Promise`: `openAsync()` (no error handler!), then
`createCollectionAsync(name)`, then `ensureIndexes(result,
collection.indexes, cb)` where the callback closes and rejects, with an
`.error` handler on the create-collection chain that also closes and
rejects.  The executor's `resolve` is never invoked. -/
def createCollectionRun (self : Connection) (env : DriverEnv)
    (name : String) (collection : JSVal) : Run :=
  Run.pThen (driverRun .dbOpen env.openRes)
    (fun opened =>
      Run.pError
        (Run.pThen
          (driverRun (.dbCreateCollection name) (env.createCollectionRes name))
          (fun result =>
            ensureIndexesRun env result (collection.getProp "indexes")
              (some (fun err =>
                Run.pThen (closeRun self env none) (fun closed => rejectRun err)))))
        (fun err =>
          Run.pThen (closeRun self env none) (fun closed => rejectRun err)))

/-- `Connection.prototype.dropCollection`, executor of its `new Promise`:
`openAsync()` (no error handler), then `dropCollectionAsync(name)`, whose
*fulfilment value* is bound to `err` and routed through close-then-reject.
A dropCollectionAsync rejection has no handler; the executor's `resolve`
is never invoked. -/
def dropCollectionRun (self : Connection) (env : DriverEnv)
    (name : String) : Run :=
  Run.pThen (driverRun .dbOpen env.openRes)
    (fun opened =>
      Run.pThen
        (driverRun (.dbDropCollection name) (env.dropCollectionRes name))
        (fun err =>
          Run.pThen (closeRun self env none) (fun closed => rejectRun err)))

/-- Public surface: the deferred returned by `open` (named `openConn`
because `open` is reserved in Lean). -/
def Connection.openConn (self : Connection) (env : DriverEnv) :
    List Ev × Outcome :=
  deferredOf (openRun self env)

/-- Public surface: the deferred returned by `authenticate`. -/
def Connection.authenticate (self : Connection) (env : DriverEnv) :
    List Ev × Outcome :=
  deferredOf (authenticateRun self env)

/-- Public surface: the promise returned by `close` (no callback). -/
def Connection.close (self : Connection) (env : DriverEnv) :
    List Ev × Outcome :=
  promiseOutcome (closeRun self env none)

/-- Public surface: the deferred returned by `createCollection`. -/
def Connection.createCollection (self : Connection) (env : DriverEnv)
    (name : String) (collection : JSVal) : List Ev × Outcome :=
  deferredOf (createCollectionRun self env name collection)

/-- Public surface: the deferred returned by `dropCollection`. -/
def Connection.dropCollection (self : Connection) (env : DriverEnv)
    (name : String) : List Ev × Outcome :=
  deferredOf (dropCollectionRun self env name)

/-- Public surface: the promise returned by `ensureIndexes` (no
callback). -/
def Connection.ensureIndexes (self : Connection) (env : DriverEnv)
    (collection indexes : JSVal) : List Ev × Outcome :=
  promiseOutcome (ensureIndexesRun env collection indexes none)

/-- A driver environment in which every driver call succeeds. -/
def envAllOk : DriverEnv :=
  { openRes := .ok .undefined
    authRes := fun u p => .ok (.bool true)
    createCollectionRes := fun n => .ok (.obj [("collectionName", .str n)])
    dropCollectionRes := fun n => .ok (.bool true)
    ensureIndexRes := fun i o => .ok .undefined }

/-- Like `envAllOk` but the transport-open step fails. -/
def envOpenFail : DriverEnv :=
  { envAllOk with openRes := .error (.errObj "connect ECONNREFUSED") }

/-- Like `envAllOk` but the drop call fails. -/
def envDropFail : DriverEnv :=
  { envAllOk with dropCollectionRes := fun n => .error (.errObj "ns not found") }

/-- Like `envAllOk` but the authentication call fails. -/
def envAuthFail : DriverEnv :=
  { envAllOk with authRes := fun u p => .error (.errObj "auth fails") }

/-- A connection built with no configuration at all. -/
def connEmpty : Connection := (connectionNew none).2

/-- A connection configured with both credentials. -/
def connCreds : Connection :=
  (connectionNew (some { emptyConfig with
    user := .str "admin", password := .str "secret" })).2

/-- A collection spec `{indexes: []}`. -/
def specNoIdx : JSVal := .obj [("indexes", .arr [])]

/-- Collection handle fulfilling `createCollectionAsync("users")` in
`envAllOk`. -/
def collUsers : JSVal := .obj [("collectionName", .str "users")]

/-- An index spec `{index: <n>, options: {}}`. -/
def idxSpec (n : String) : JSVal := .obj [("index", .str n), ("options", .obj [])]

/-- Three index specs, as in the spec's fail-fast scenario. -/
def threeSpecs : JSVal := .arr [idxSpec "ix_1", idxSpec "ix_2", idxSpec "ix_3"]

/-- A connection configured with a user but no password. -/
def cfgUserOnly : Config := { emptyConfig with user := .str "admin" }

/-- Event classifier: `true` for driver-call events, `false` for the two
in-memory handle constructions. -/
def noCtorEv : Ev → Bool
  | .newServerHandle => false
  | .newDatabaseHandle => false
  | _ => true

/-- Structural invariant of a run: every emitted event satisfies `pe` and
every `resolve`/`reject` invocation satisfies `ps`. -/
def RunOk (pe : Ev → Bool) (ps : Settle → Prop) (r : Run) : Prop :=
  r.tr.all pe = true ∧ ∀ s, r.settle = some s → ps s

theorem mergeSettle_pred {ps : Settle → Prop} {a b : Option Settle}
    (ha : ∀ s, a = some s → ps s) (hb : ∀ s, b = some s → ps s) :
    ∀ s, mergeSettle a b = some s → ps s := by
  intro s h
  cases a with
  | some s0 =>
    simp [mergeSettle] at h
    exact h ▸ ha s0 rfl
  | none => exact hb s h

theorem runOk_pThen {pe : Ev → Bool} {ps : Settle → Prop} {r : Run}
    {f : JSVal → Run} (h1 : RunOk pe ps r) (h2 : ∀ v, RunOk pe ps (f v)) :
    RunOk pe ps (r.pThen f) := by
  obtain ⟨ht, hs⟩ := h1
  cases hres : r.res with
  | ok v =>
    obtain ⟨ht2, hs2⟩ := h2 v
    exact ⟨by simp [Run.pThen, hres, List.all_append, ht, ht2],
           by simpa [Run.pThen, hres] using mergeSettle_pred hs hs2⟩
  | err e op => exact ⟨by simp [Run.pThen, hres, ht], by simpa [Run.pThen, hres] using hs⟩
  | stuck => exact ⟨by simp [Run.pThen, hres, ht], by simpa [Run.pThen, hres] using hs⟩

theorem runOk_pError {pe : Ev → Bool} {ps : Settle → Prop} {r : Run}
    {h : JSVal → Run} (h1 : RunOk pe ps r) (h2 : ∀ v, RunOk pe ps (h v)) :
    RunOk pe ps (r.pError h) := by
  obtain ⟨ht, hs⟩ := h1
  cases hres : r.res with
  | ok v =>
    have heq : r.pError h = r := by simp [Run.pError, hres]
    rw [heq]; exact ⟨ht, hs⟩
  | err e op =>
    cases op with
    | true =>
      obtain ⟨ht2, hs2⟩ := h2 e
      exact ⟨by simp [Run.pError, hres, List.all_append, ht, ht2],
             by simpa [Run.pError, hres] using mergeSettle_pred hs hs2⟩
    | false =>
      have heq : r.pError h = r := by simp [Run.pError, hres]
      rw [heq]; exact ⟨ht, hs⟩
  | stuck =>
    have heq : r.pError h = r := by simp [Run.pError, hres]
    rw [heq]; exact ⟨ht, hs⟩

theorem runOk_nodeify {pe : Ev → Bool} {ps : Settle → Prop} {r : Run}
    {cb : JSVal → Run} (h1 : RunOk pe ps r) (h2 : ∀ v, RunOk pe ps (cb v)) :
    RunOk pe ps (r.nodeifyRun cb) := by
  obtain ⟨ht, hs⟩ := h1
  cases hres : r.res with
  | ok v =>
    obtain ⟨ht2, hs2⟩ := h2 .null
    exact ⟨by simp [Run.nodeifyRun, hres, List.all_append, ht, ht2],
           by simpa [Run.nodeifyRun, hres] using mergeSettle_pred hs hs2⟩
  | err e op =>
    obtain ⟨ht2, hs2⟩ := h2 e
    exact ⟨by simp [Run.nodeifyRun, hres, List.all_append, ht, ht2],
           by simpa [Run.nodeifyRun, hres] using mergeSettle_pred hs hs2⟩
  | stuck =>
    have heq : r.nodeifyRun cb = r := by simp [Run.nodeifyRun, hres]
    rw [heq]; exact ⟨ht, hs⟩

theorem runOk_asPromise {pe : Ev → Bool} {ps : Settle → Prop} {r : Run}
    (h1 : r.tr.all pe = true) : RunOk pe ps r.asPromise :=
  ⟨h1, by intro s h; simp [Run.asPromise] at h⟩

theorem runOk_driverRun {pe : Ev → Bool} {ps : Settle → Prop} {ev : Ev}
    (hpe : pe ev = true) (res : Except JSVal JSVal) :
    RunOk pe ps (driverRun ev res) := by
  refine ⟨by simp [driverRun, hpe], ?_⟩
  intro s h
  simp [driverRun] at h

theorem runOk_syncCallRun {pe : Ev → Bool} {ps : Settle → Prop} {ev : Ev}
    (hpe : pe ev = true) (res : Except JSVal JSVal) :
    RunOk pe ps (syncCallRun ev res) := by
  refine ⟨by simp [syncCallRun, hpe], ?_⟩
  intro s h
  simp [syncCallRun] at h

theorem runOk_resolveRun {pe : Ev → Bool} {ps : Settle → Prop} {v : JSVal}
    (hps : ps (.sResolve v)) : RunOk pe ps (resolveRun v) := by
  refine ⟨rfl, ?_⟩
  intro s h
  simp [resolveRun] at h
  exact h ▸ hps

theorem runOk_rejectRun {pe : Ev → Bool} {ps : Settle → Prop} {v : JSVal}
    (hps : ps (.sReject v)) : RunOk pe ps (rejectRun v) := by
  refine ⟨rfl, ?_⟩
  intro s h
  simp [rejectRun] at h
  exact h ▸ hps

theorem runOk_promiseAllRun {pe : Ev → Bool} {ps : Settle → Prop} (v : JSVal) :
    RunOk pe ps (promiseAllRun v) := by
  cases v <;> exact ⟨rfl, by intro s h; simp [promiseAllRun] at h⟩

theorem runOk_closeRun {pe : Ev → Bool} {ps : Settle → Prop}
    {self : Connection} {env : DriverEnv} {cb : Option (JSVal → Run)}
    (hClose : pe .dbClose = true)
    (hcb : ∀ f, cb = some f → ∀ v, RunOk pe ps (f v)) :
    RunOk pe ps (closeRun self env cb) := by
  cases cb with
  | none => exact runOk_driverRun hClose _
  | some f => exact runOk_nodeify (runOk_driverRun hClose _) (hcb f rfl)

theorem runOk_createIndexRun {pe : Ev → Bool} {ps : Settle → Prop}
    {env : DriverEnv} {collection item : JSVal}
    (hEI : ∀ a b c, pe (.collEnsureIndex a b c) = true) :
    RunOk pe ps (createIndexRun env collection item) :=
  runOk_syncCallRun (hEI _ _ _) _

theorem runOk_ensureIndexesRun {pe : Ev → Bool} {ps : Settle → Prop}
    {env : DriverEnv} {collection indexes : JSVal} {cb : Option (JSVal → Run)}
    (hEI : ∀ a b c, pe (.collEnsureIndex a b c) = true)
    (hcb : ∀ f, cb = some f → ∀ v, RunOk pe ps (f v)) :
    RunOk pe ps (ensureIndexesRun env collection indexes cb) := by
  have hp : RunOk pe ps
      (Run.pThen (promiseAllRun indexes) (fun items => createIndexRun env collection items)) :=
    runOk_pThen (runOk_promiseAllRun _) (fun v => runOk_createIndexRun hEI)
  cases cb with
  | none => exact hp
  | some f => exact runOk_nodeify hp (hcb f rfl)

theorem runOk_authenticateRun {pe : Ev → Bool} {ps : Settle → Prop}
    {self : Connection} {env : DriverEnv}
    (hAuth : ∀ u p, pe (.dbAuthenticate u p) = true)
    (hClose : pe .dbClose = true)
    (hRes : ∀ v, ps (.sResolve v))
    (hRej : ∀ v, ps (.sReject v)) :
    RunOk pe ps (authenticateRun self env) := by
  by_cases hc : (!self.database.serverConfig.options.auth.user.truthy &&
      !self.database.serverConfig.options.auth.password.truthy) = true
  · rw [authenticateRun]
    simp only [hc, if_true]
    exact runOk_resolveRun (hRes _)
  · rw [authenticateRun]
    simp only [hc, if_false]
    refine runOk_pError (runOk_pThen (runOk_driverRun (hAuth _ _) _)
      (fun v => runOk_resolveRun (hRes _))) ?_
    intro e
    refine runOk_closeRun hClose ?_
    intro f hf v
    cases hf
    by_cases he : e.truthy = true
    · simp only [he, if_true]
      exact runOk_rejectRun (hRej _)
    · simp only [he, if_false]
      exact runOk_rejectRun (hRej _)

theorem runOk_openRun {pe : Ev → Bool} {ps : Settle → Prop}
    {self : Connection} {env : DriverEnv}
    (hOpen : pe .dbOpen = true)
    (hAuth : ∀ u p, pe (.dbAuthenticate u p) = true)
    (hClose : pe .dbClose = true)
    (hRes : ∀ v, ps (.sResolve v))
    (hRej : ∀ v, ps (.sReject v)) :
    RunOk pe ps (openRun self env) := by
  refine runOk_pError (runOk_pThen (runOk_driverRun hOpen _) ?_)
    (fun e => runOk_rejectRun (hRej _))
  intro v
  exact runOk_asPromise (runOk_authenticateRun hAuth hClose hRes hRej).1

theorem runOk_createCollectionRun {pe : Ev → Bool} {ps : Settle → Prop}
    {self : Connection} {env : DriverEnv} {name : String} {collection : JSVal}
    (hOpen : pe .dbOpen = true)
    (hCreate : pe (.dbCreateCollection name) = true)
    (hClose : pe .dbClose = true)
    (hEI : ∀ a b c, pe (.collEnsureIndex a b c) = true)
    (hRej : ∀ v, ps (.sReject v)) :
    RunOk pe ps (createCollectionRun self env name collection) := by
  refine runOk_pThen (runOk_driverRun hOpen _) ?_
  intro opened
  refine runOk_pError (runOk_pThen (runOk_driverRun hCreate _) ?_) ?_
  · intro result
    refine runOk_ensureIndexesRun hEI ?_
    intro f hf err
    cases hf
    exact runOk_pThen (runOk_closeRun hClose (by intro f h; cases h))
      (fun closed => runOk_rejectRun (hRej _))
  · intro err
    exact runOk_pThen (runOk_closeRun hClose (by intro f h; cases h))
      (fun closed => runOk_rejectRun (hRej _))

theorem runOk_dropCollectionRun {pe : Ev → Bool} {ps : Settle → Prop}
    {self : Connection} {env : DriverEnv} {name : String}
    (hOpen : pe .dbOpen = true)
    (hDrop : pe (.dbDropCollection name) = true)
    (hClose : pe .dbClose = true)
    (hRej : ∀ v, ps (.sReject v)) :
    RunOk pe ps (dropCollectionRun self env name) := by
  refine runOk_pThen (runOk_driverRun hOpen _) ?_
  intro opened
  refine runOk_pThen (runOk_driverRun hDrop _) ?_
  intro err
  exact runOk_pThen (runOk_closeRun hClose (by intro f h; cases h))
    (fun closed => runOk_rejectRun (hRej _))

/-- Property access on an array yields `undefined`. -/
theorem getProp_arr (xs : List JSVal) (k : String) :
    (JSVal.arr xs).getProp k = .undefined := rfl

/-- Helper: the fully successful `createCollection` run.  Open succeeds,
the collection is created, the single (buggy) `ensureIndex` call returns,
and `nodeify` then invokes the close-and-reject callback with a `null`
error, so the deferred is rejected with `null`. -/
theorem createCollection_success_run
    (conn : Connection) (env : DriverEnv) (name : String) (spec : JSVal)
    (l : List JSVal) (u c v : JSVal)
    (hopen : env.openRes = .ok u)
    (hcreate : env.createCollectionRes name = .ok c)
    (hidx : spec.getProp "indexes" = .arr l)
    (hensure : env.ensureIndexRes .undefined .undefined = .ok v) :
    Connection.createCollection conn env name spec =
      ([.dbOpen, .dbCreateCollection name, .collEnsureIndex c .undefined .undefined,
        .dbClose], .rejected .null) := by
  simp [Connection.createCollection, createCollectionRun, ensureIndexesRun,
        createIndexRun, promiseAllRun, driverRun, syncCallRun, closeRun, rejectRun,
        Run.pThen, Run.pError, Run.nodeifyRun, mergeSettle, deferredOf,
        hopen, hcreate, hidx, hensure, getProp_arr]

/-- C1: the spec says `ensureIndexes` invokes the driver's index-ensure
call once per IndexSpec entry, with that entry's definition and options,
failing fast on a per-entry error.  The code instead hands the *whole*
spec array to `createIndex` (`Promise.all(indexes).then(createIndex)`),
so `collection.ensureIndex` is invoked exactly once with
`(undefined, undefined)` — the `.index` / `.options` properties of the
array — regardless of the entries: three specs yield a single driver
call. -/
theorem ensureIndexes_single_driver_call :
    Connection.ensureIndexes connEmpty envAllOk collUsers threeSpecs =
      ([.collEnsureIndex collUsers .undefined .undefined], .resolved .undefined) := rfl

/-- C2: the claim says `open()`'s deferred resolves when authentication
succeeds, or immediately when no credentials are configured.  The
executor never invokes `resolve`, so on both success paths the deferred
stays pending forever: without credentials after a successful open, and
with credentials after a successful open plus successful
authentication. -/
theorem open_success_stays_pending :
    Connection.openConn connEmpty envAllOk = ([.dbOpen], .pending)
      ∧ Connection.openConn connCreds envAllOk =
          ([.dbOpen, .dbAuthenticate (.str "admin") (.str "secret")], .pending) :=
  ⟨rfl, rfl⟩

/-- C3 counterexample: with the open step succeeding but the drop call
failing, `dropCollection` neither closes the connection nor settles its
deferred — refuting the claim that every call with a successful open
routes through close-then-reject. -/
theorem dropCollection_drop_failure_stays_pending :
    Connection.dropCollection connEmpty envDropFail "users" =
      ([.dbOpen, .dbDropCollection "users"], .pending) := rfl

/-- C3 (amended): when the open step and the drop call both succeed,
`dropCollection` routes the drop call's success result through the
close-then-reject path: the connection is closed and the deferred is
rejected with that result, even though the driver reported success. -/
theorem dropCollection_success_closes_then_rejects
    (conn : Connection) (env : DriverEnv) (name : String) (u w : JSVal)
    (hopen : env.openRes = .ok u)
    (hdrop : env.dropCollectionRes name = .ok w) :
    Connection.dropCollection conn env name =
      ([.dbOpen, .dbDropCollection name, .dbClose], .rejected w) := by
  simp [Connection.dropCollection, dropCollectionRun, driverRun, closeRun,
        rejectRun, Run.pThen, mergeSettle, deferredOf, hopen, hdrop]

/-- C3 witness: the amended theorem at a concrete input. -/
theorem dropCollection_success_closes_then_rejects_witness :
    envAllOk.openRes = .ok .undefined
      ∧ envAllOk.dropCollectionRes "users" = .ok (.bool true)
      ∧ Connection.dropCollection connEmpty envAllOk "users" =
          ([.dbOpen, .dbDropCollection "users", .dbClose], .rejected (.bool true)) :=
  ⟨rfl, rfl,
   dropCollection_success_closes_then_rejects connEmpty envAllOk "users" .undefined
     (.bool true) rfl rfl⟩

/-- C4: the claim says every error surfaces to the caller as a rejection,
in particular a failed open inside `createCollection` or `dropCollection`.
Neither method attaches an error handler to `openAsync()`, so an open
failure is swallowed: the deferred stays pending forever and nothing is
ever rejected. -/
theorem open_failure_swallowed :
    Connection.createCollection connEmpty envOpenFail "users" specNoIdx =
        ([.dbOpen], .pending)
      ∧ Connection.dropCollection connEmpty envOpenFail "users" =
          ([.dbOpen], .pending) :=
  ⟨rfl, rfl⟩

/-- C5 counterexample: on a fully successful `createCollection` run the
caller does not observe "absence of an observed error" — the deferred is
rejected (with a `null` reason), refuting the claim that only the failure
branches reject. -/
theorem createCollection_success_observed_as_rejection :
    (Connection.createCollection connEmpty envAllOk "users" specNoIdx).2 =
      .rejected .null := rfl

/-- C5 (amended): the success path indeed never resolves the deferred
with a value, but it is not silent either: whenever open, collection
creation and the index call all succeed, the deferred is rejected with a
`null` reason, so the caller observes a null rejection rather than the
absence of an observed error. -/
theorem createCollection_success_no_resolution
    (conn : Connection) (env : DriverEnv) (name : String) (spec : JSVal)
    (l : List JSVal) (u c v : JSVal)
    (hopen : env.openRes = .ok u)
    (hcreate : env.createCollectionRes name = .ok c)
    (hidx : spec.getProp "indexes" = .arr l)
    (hensure : env.ensureIndexRes .undefined .undefined = .ok v) :
    (Connection.createCollection conn env name spec).2 = .rejected .null := by
  rw [createCollection_success_run conn env name spec l u c v hopen hcreate hidx
    hensure]

/-- C5 witness: the amended theorem at a concrete input. -/
theorem createCollection_success_no_resolution_witness :
    envAllOk.openRes = .ok .undefined
      ∧ envAllOk.createCollectionRes "users" = .ok collUsers
      ∧ specNoIdx.getProp "indexes" = .arr []
      ∧ envAllOk.ensureIndexRes .undefined .undefined = .ok .undefined
      ∧ (Connection.createCollection connCreds envAllOk "users" specNoIdx).2 =
          .rejected .null :=
  ⟨rfl, rfl, rfl, rfl,
   createCollection_success_no_resolution connCreds envAllOk "users" specNoIdx []
     .undefined collUsers .undefined rfl rfl rfl rfl⟩

/-- C6: whenever the driver authentication call fails, `authenticate`
closes the connection first (the close is the last driver call, and the
rejection is issued from the close completion callback) and only then
rejects — with the driver's reported error when it is truthy, otherwise
with the generic could-not-authenticate `Error`: the driver error takes
precedence whenever available. -/
theorem authenticate_failure_closes_then_rejects
    (cfg : Config) (env : DriverEnv) (e : JSVal)
    (hcred : cfg.user.truthy = true ∨ cfg.password.truthy = true)
    (hauth : env.authRes (jsOr cfg.user (.str "")) (jsOr cfg.password (.str "")) =
        .error e) :
    Connection.authenticate ((connectionNew (some cfg)).2) env =
      ([.dbAuthenticate (jsOr cfg.user (.str "")) (jsOr cfg.password (.str "")),
        .dbClose],
       .rejected (if e.truthy then e
         else .errObj
           "Could not authenticate the User/Password combination provided.")) := by
  have hcond : (!cfg.user.truthy && !cfg.password.truthy) = false := by
    rcases hcred with h | h <;> simp [h]
  by_cases he : e.truthy = true <;>
    simp [Connection.authenticate, authenticateRun, connectionNew, buildConnection,
      deferredOf, driverRun, closeRun, rejectRun, Run.pThen, Run.pError,
      Run.nodeifyRun, mergeSettle, hcond, hauth, he]

/-- C6 witness: a failing driver authentication with a truthy error at a
concrete user-only configuration. -/
theorem authenticate_failure_closes_then_rejects_witness :
    (cfgUserOnly.user.truthy = true ∨ cfgUserOnly.password.truthy = true)
      ∧ envAuthFail.authRes (jsOr cfgUserOnly.user (.str ""))
          (jsOr cfgUserOnly.password (.str "")) = .error (.errObj "auth fails")
      ∧ Connection.authenticate ((connectionNew (some cfgUserOnly)).2) envAuthFail =
          ([.dbAuthenticate (.str "admin") (.str ""), .dbClose],
           .rejected (.errObj "auth fails")) :=
  ⟨Or.inl rfl, rfl, by
    have h := authenticate_failure_closes_then_rejects cfgUserOnly envAuthFail
      (.errObj "auth fails") (Or.inl rfl) rfl
    simpa using h⟩

/-- C7: with neither credential truthy, `authenticate` resolves at once
with no driver call at all (empty trace); with exactly one credential
configured, the driver authentication call is still attempted, the
missing half replaced by the empty string. -/
theorem authenticate_credential_paths (cfg : Config) (env : DriverEnv) :
    (cfg.user.truthy = false → cfg.password.truthy = false →
        Connection.authenticate ((connectionNew (some cfg)).2) env =
          ([], .resolved .undefined))
      ∧ (cfg.user.truthy = true → cfg.password.truthy = false →
          (Connection.authenticate ((connectionNew (some cfg)).2) env).1.head? =
            some (.dbAuthenticate cfg.user (.str "")))
      ∧ (cfg.user.truthy = false → cfg.password.truthy = true →
          (Connection.authenticate ((connectionNew (some cfg)).2) env).1.head? =
            some (.dbAuthenticate (.str "") cfg.password)) := by
  refine ⟨?_, ?_, ?_⟩
  · intro hu hp
    simp [Connection.authenticate, authenticateRun, connectionNew, buildConnection,
      deferredOf, resolveRun, hu, hp]
  · intro hu hp
    have h1 : jsOr cfg.user (.str "") = cfg.user := by simp [jsOr, hu]
    have h2 : jsOr cfg.password (.str "") = .str "" := by simp [jsOr, hp]
    cases hres : env.authRes cfg.user (.str "") with
    | ok v =>
      simp [Connection.authenticate, authenticateRun, connectionNew, buildConnection,
        deferredOf, driverRun, resolveRun, Run.pThen, Run.pError, mergeSettle,
        h1, h2, hu, hp, hres]
    | error e =>
      by_cases he : e.truthy = true <;>
        simp [Connection.authenticate, authenticateRun, connectionNew,
          buildConnection, deferredOf, driverRun, closeRun, rejectRun, Run.pThen,
          Run.pError, Run.nodeifyRun, mergeSettle, h1, h2, hu, hp, hres, he]
  · intro hu hp
    have h1 : jsOr cfg.user (.str "") = .str "" := by simp [jsOr, hu]
    have h2 : jsOr cfg.password (.str "") = cfg.password := by simp [jsOr, hp]
    cases hres : env.authRes (.str "") cfg.password with
    | ok v =>
      simp [Connection.authenticate, authenticateRun, connectionNew, buildConnection,
        deferredOf, driverRun, resolveRun, Run.pThen, Run.pError, mergeSettle,
        h1, h2, hu, hp, hres]
    | error e =>
      by_cases he : e.truthy = true <;>
        simp [Connection.authenticate, authenticateRun, connectionNew,
          buildConnection, deferredOf, driverRun, closeRun, rejectRun, Run.pThen,
          Run.pError, Run.nodeifyRun, mergeSettle, h1, h2, hu, hp, hres, he]

/-- C7 witness: the anonymous path at the empty configuration, and the
user-only path with the empty string substituted for the password. -/
theorem authenticate_credential_paths_witness :
    emptyConfig.user.truthy = false ∧ emptyConfig.password.truthy = false
      ∧ Connection.authenticate ((connectionNew (some emptyConfig)).2) envAllOk =
          ([], .resolved .undefined)
      ∧ cfgUserOnly.user.truthy = true ∧ cfgUserOnly.password.truthy = false
      ∧ (Connection.authenticate ((connectionNew (some cfgUserOnly)).2) envAllOk).1.head? =
          some (.dbAuthenticate (.str "admin") (.str "")) :=
  ⟨rfl, rfl, (authenticate_credential_paths emptyConfig envAllOk).1 rfl rfl,
   rfl, rfl, (authenticate_credential_paths cfgUserOnly envAllOk).2.1 rfl rfl⟩

/-- C8: the two handles are created exactly once, at construction, which
emits no driver I/O events; the database handle is bound to the very
server handle built alongside it; the boolean `safe` flag maps to the
numeric write-acknowledgement level 1 (safe) or 0 (unsafe); and no
operation ever emits a handle-construction event — every operation reuses
the constructed handles. -/
theorem handles_built_once_and_reused (cfg : Config) :
    (connectionNew (some cfg)).1 = [.newServerHandle, .newDatabaseHandle]
      ∧ ((connectionNew (some cfg)).2).database.options.w =
          (if cfg.safe.truthy then 1 else 0)
      ∧ ((connectionNew (some cfg)).2).database.serverConfig =
          ((connectionNew (some cfg)).2).server
      ∧ (∀ env, ((connectionNew (some cfg)).2.openConn env).1.all noCtorEv = true)
      ∧ (∀ env, ((connectionNew (some cfg)).2.close env).1.all noCtorEv = true)
      ∧ (∀ env,
          ((connectionNew (some cfg)).2.authenticate env).1.all noCtorEv = true)
      ∧ (∀ env name spec,
          ((connectionNew (some cfg)).2.createCollection env name spec).1.all
            noCtorEv = true)
      ∧ (∀ env name,
          ((connectionNew (some cfg)).2.dropCollection env name).1.all
            noCtorEv = true)
      ∧ (∀ env coll idxs,
          ((connectionNew (some cfg)).2.ensureIndexes env coll idxs).1.all
            noCtorEv = true) := by
  refine ⟨rfl, rfl, rfl, ?_, ?_, ?_, ?_, ?_, ?_⟩
  · intro env
    exact (@runOk_openRun noCtorEv (fun s => True) _ _ rfl (fun u p => rfl) rfl
      (fun v => trivial) (fun v => trivial)).1
  · intro env
    exact (@runOk_closeRun noCtorEv (fun s => True) _ _ _ rfl (by intro f h; cases h)).1
  · intro env
    exact (@runOk_authenticateRun noCtorEv (fun s => True) _ _ (fun u p => rfl) rfl
      (fun v => trivial) (fun v => trivial)).1
  · intro env name spec
    exact (@runOk_createCollectionRun noCtorEv (fun s => True) _ _ _ _ rfl rfl rfl
      (fun a b c => rfl) (fun v => trivial)).1
  · intro env name
    exact (@runOk_dropCollectionRun noCtorEv (fun s => True) _ _ _ rfl rfl rfl
      (fun v => trivial)).1
  · intro env coll idxs
    exact (@runOk_ensureIndexesRun noCtorEv (fun s => True) _ _ _ _ (fun a b c => rfl)
      (by intro f h; cases h)).1

/-- C9: on a fully successful run the callback `createCollection` hands
to `ensureIndexes` is still invoked — with a `null` error, via the
promise-to-callback adapter — so the connection is closed and the
deferred is rejected with a `null` reason even on the success path; and
on no input whatsoever does `createCollection`'s deferred ever fulfil. -/
theorem createCollection_null_rejection_on_success :
    (∀ (conn : Connection) (env : DriverEnv) (name : String) (spec : JSVal)
        (l : List JSVal) (u c v : JSVal),
        env.openRes = .ok u →
        env.createCollectionRes name = .ok c →
        spec.getProp "indexes" = .arr l →
        env.ensureIndexRes .undefined .undefined = .ok v →
        Connection.createCollection conn env name spec =
          ([.dbOpen, .dbCreateCollection name, .collEnsureIndex c .undefined .undefined,
            .dbClose], .rejected .null))
      ∧ (∀ (conn : Connection) (env : DriverEnv) (name : String) (spec w : JSVal),
          (Connection.createCollection conn env name spec).2 ≠ .resolved w) := by
  constructor
  · intro conn env name spec l u c v hopen hcreate hidx hensure
    exact createCollection_success_run conn env name spec l u c v hopen hcreate
      hidx hensure
  · intro conn env name spec w h
    have hOk : RunOk (fun e => true) (fun s => ∀ v, s ≠ Settle.sResolve v)
        (createCollectionRun conn env name spec) :=
      runOk_createCollectionRun rfl rfl rfl (fun a b c => rfl)
        (fun v v' hv => Settle.noConfusion hv)
    simp only [Connection.createCollection, deferredOf] at h
    cases hsettle : (createCollectionRun conn env name spec).settle with
    | none => rw [hsettle] at h; simp at h
    | some s =>
      rw [hsettle] at h
      cases s with
      | sResolve v => exact hOk.2 _ hsettle v rfl
      | sReject v => simp at h

/-- C9 witness: the success-path half of the theorem at a concrete
input. -/
theorem createCollection_null_rejection_on_success_witness :
    envAllOk.openRes = .ok .undefined
      ∧ envAllOk.createCollectionRes "users" = .ok collUsers
      ∧ specNoIdx.getProp "indexes" = .arr []
      ∧ envAllOk.ensureIndexRes .undefined .undefined = .ok .undefined
      ∧ Connection.createCollection connEmpty envAllOk "users" specNoIdx =
          ([.dbOpen, .dbCreateCollection "users",
            .collEnsureIndex collUsers .undefined .undefined, .dbClose],
           .rejected .null) :=
  ⟨rfl, rfl, rfl, rfl,
   createCollection_null_rejection_on_success.1 connEmpty envAllOk "users"
     specNoIdx [] .undefined collUsers .undefined rfl rfl rfl rfl⟩

/-- C10: constructing with no configuration argument is total and builds
the same object as constructing with an explicit empty configuration:
config defaults to the empty record, both handles are built with
`undefined` host, port, database name and credentials, and the write
level defaults to 0. -/
theorem construction_without_config :
    connectionNew none = connectionNew (some emptyConfig)
      ∧ connectionNew none =
          ([.newServerHandle, .newDatabaseHandle],
           { config := emptyConfig
             server :=
               { host := .undefined, port := .undefined
                 options :=
                   { nativeParser := .undefined
                     auth := { user := .undefined, password := .undefined } } }
             database :=
               { databaseName := .undefined
                 serverConfig :=
                   { host := .undefined, port := .undefined
                     options :=
                       { nativeParser := .undefined
                         auth := { user := .undefined, password := .undefined } } }
                 options := { w := 0, nativeParser := .undefined } } }) :=
  ⟨rfl, rfl⟩
